import Mathlib

/-!
Shallow embedding of `custom_components/basestation/lib.py`: the
`BasestationAPI` protocol client for Valve Index base stations.

Characteristic reads and writes are modelled by environments giving the
outcome of each characteristic access; the mutable object state of a
`BasestationAPI` instance is threaded explicitly; transport effects
(reads issued, writes issued, disconnect calls, callback invocations)
are recorded in a trace.
-/

set_option maxRecDepth 4000

deriving instance DecidableEq for Except

/-- The GATT characteristics used by the client (lib.py lines 29-36). -/
inductive CharId where
  | modelId
  | serialNumber
  | swVersion
  | manufacturer
  | power
  | identify
  | channel
deriving DecidableEq

/-- CHANNEL_NUM_MIN (lib.py line 38). -/
def CHANNEL_NUM_MIN : Int := 1

/-- CHANNEL_NUM_MAX (lib.py line 39). -/
def CHANNEL_NUM_MAX : Int := 16

/-- Enum `BasestationStatePower` (lib.py lines 75-82). -/
inductive BasestationStatePower where
  | SLEEPING
  | AWAKE
  | STANDBY
  | AWAKE_AFTER_SLEEPING
  | AWAKE_AFTER_STANDBY
deriving DecidableEq

/-- Wire value of each enum member (lib.py lines 78-82). -/
def BasestationStatePower.value : BasestationStatePower → Nat
  | .SLEEPING => 0x00
  | .AWAKE => 0x01
  | .STANDBY => 0x02
  | .AWAKE_AFTER_SLEEPING => 0x09
  | .AWAKE_AFTER_STANDBY => 0x0B

/-- Python `BasestationStatePower(b)`: enum lookup by wire value; an
unmapped byte raises `ValueError`, modelled as `none`. -/
def BasestationStatePower.ofByte (b : Nat) : Option BasestationStatePower :=
  if b = 0x00 then some .SLEEPING
  else if b = 0x01 then some .AWAKE
  else if b = 0x02 then some .STANDBY
  else if b = 0x09 then some .AWAKE_AFTER_SLEEPING
  else if b = 0x0B then some .AWAKE_AFTER_STANDBY
  else none

/-- Errors the embedded operations can raise. `protocolDecode` is the
`ValueError` raised by the enum constructor on an unmapped power byte;
`validationError` is the `ValueError` raised by `set_channel` on an
out-of-range channel; `indexError` is Python's `IndexError` on indexing
an empty bytearray; `transport` covers errors surfaced by the BLE
transport (after the retry decorator's budget is exhausted); and
`decodeError` covers `UnicodeDecodeError` from `bytes.decode()`. -/
inductive BSError where
  | transport (code : Nat)
  | decodeError
  | protocolDecode (b : Nat)
  | indexError
  | validationError
deriving DecidableEq

/-- Dataclass `BasestationState` (lib.py lines 85-91): all three fields
default to `None`, modelled as `none`. -/
structure BasestationState where
  power : Option BasestationStatePower
  channel : Option Int
  sw_version : Option String
deriving DecidableEq

/-- A `BasestationState` with every field unset, as constructed by
`BasestationState()` with all defaults. -/
def BasestationState.initial : BasestationState :=
  { power := none, channel := none, sw_version := none }

/-- The mutable attributes of a `BasestationAPI` instance that the
claims concern (lib.py lines 106-111).  Callbacks are identified by
`Nat` tokens standing for the distinct function objects appended to
`self._callbacks`. -/
structure APIState where
  state : BasestationState
  manufacturer : Option String
  model_id : Option String
  serial_number : Option String
  callbacks : List Nat
deriving DecidableEq

/-- A freshly constructed `BasestationAPI` (lib.py lines 97-111). -/
def APIState.initial : APIState :=
  { state := BasestationState.initial
    manufacturer := none
    model_id := none
    serial_number := none
    callbacks := [] }

/-- Transport effects performed by an operation: characteristics read,
characteristic writes issued (with the list of command byte blocks),
number of `disconnect()` calls, and the callback invocations fired
(callback token paired with the snapshot it received). -/
structure Trace where
  reads : List CharId
  writes : List (CharId × List (List Nat))
  disconnects : Nat
  callbackEvents : List (Nat × BasestationState)
deriving DecidableEq

def Trace.empty : Trace :=
  { reads := [], writes := [], disconnects := 0, callbackEvents := [] }

/-- Outcome of one operation on the API object: the returned value or
raised error, the object state afterwards, and the effect trace. -/
structure Outcome (α : Type) where
  result : Except BSError α
  post : APIState
  trace : Trace

/-- Outcome of each characteristic read `update()` may perform.  The
three identity characteristics and the firmware version are read and
then `.decode()`d, so their outcome is a decoded string or an error;
power and channel are consumed as raw bytes by `update()` itself. -/
structure ReadEnv where
  modelId : Except BSError String
  manufacturer : Except BSError String
  serialNumber : Except BSError String
  powerBytes : Except BSError (List Nat)
  channelBytes : Except BSError (List Nat)
  swVersion : Except BSError String

/-- Outcome of each characteristic write the write operations perform. -/
structure WriteEnv where
  power : Except BSError Unit
  channel : Except BSError Unit
  identify : Except BSError Unit

/-- Python `int.from_bytes(b)`: big-endian unsigned interpretation. -/
def intFromBytes (bytes : List Nat) : Nat :=
  bytes.foldl (fun acc b => acc * 256 + b) 0

/-- Decoding of the power characteristic inside `update()` (lib.py
lines 197-199): index byte 0 of the bytearray (IndexError when empty),
then map through the enum (ValueError when unmapped). -/
def decodePower (bytes : List Nat) : Except BSError BasestationStatePower :=
  match bytes with
  | [] => .error .indexError
  | b :: _ =>
    match BasestationStatePower.ofByte b with
    | some p => .ok p
    | none => .error (.protocolDecode b)

/-- The identity bootstrap at the start of `update()` (lib.py lines
184-195): guarded by `self._serial_number is None`; reads and assigns
model id, manufacturer and serial number in order, so a failure part
way through leaves the earlier assignments in place.  Returns the
object state reached, the characteristics read, and the error if any. -/
def bootstrapIdentity (env : ReadEnv) (s : APIState) :
    APIState × List CharId × Option BSError :=
  if s.serial_number = none then
    match env.modelId with
    | .error e => (s, [CharId.modelId], some e)
    | .ok m =>
      let s1 := { s with model_id := some m }
      match env.manufacturer with
      | .error e => (s1, [CharId.modelId, CharId.manufacturer], some e)
      | .ok mf =>
        let s2 := { s1 with manufacturer := some mf }
        match env.serialNumber with
        | .error e =>
          (s2, [CharId.modelId, CharId.manufacturer, CharId.serialNumber], some e)
        | .ok sn =>
          ({ s2 with serial_number := some sn },
            [CharId.modelId, CharId.manufacturer, CharId.serialNumber], none)
  else (s, [], none)

/-- Method `BasestationAPI.update` (lib.py lines 180-214).  The `try` body
reads identity (only when the serial number is not yet cached), power,
channel and firmware version; the `finally` always calls
`self.disconnect()` exactly once; only after the whole body succeeded
is `self._state` assigned a single fresh snapshot, which is returned.
No callbacks are fired. -/
def update (env : ReadEnv) (s : APIState) : Outcome BasestationState :=
  let (s1, idReads, idErr) := bootstrapIdentity env s
  match idErr with
  | some e =>
    { result := .error e, post := s1
      trace := { Trace.empty with reads := idReads, disconnects := 1 } }
  | none =>
    match env.powerBytes with
    | .error e =>
      { result := .error e, post := s1
        trace :=
          { Trace.empty with reads := idReads ++ [CharId.power], disconnects := 1 } }
    | .ok pb =>
      match decodePower pb with
      | .error e =>
        { result := .error e, post := s1
          trace :=
            { Trace.empty with reads := idReads ++ [CharId.power], disconnects := 1 } }
      | .ok power =>
        match env.channelBytes with
        | .error e =>
          { result := .error e, post := s1
            trace :=
              { Trace.empty with
                  reads := idReads ++ [CharId.power, CharId.channel]
                  disconnects := 1 } }
        | .ok cb =>
          match env.swVersion with
          | .error e =>
            { result := .error e, post := s1
              trace :=
                { Trace.empty with
                    reads := idReads ++ [CharId.power, CharId.channel, CharId.swVersion]
                    disconnects := 1 } }
          | .ok sw =>
            let newState : BasestationState :=
              { power := some power
                channel := some (Int.ofNat (intFromBytes cb))
                sw_version := some sw }
            { result := .ok newState
              post := { s1 with state := newState }
              trace :=
                { Trace.empty with
                    reads := idReads ++ [CharId.power, CharId.channel, CharId.swVersion]
                    disconnects := 1 } }

/-- What a callback may do when invoked: nothing beyond observing the
snapshot, or call an unsubscribe handle (which runs
`self._callbacks.remove(target)`). -/
inductive CbEffect where
  | pure
  | unregisterCb (target : Nat)
deriving DecidableEq

/-- One step of `self._callbacks.remove(c)` semantics: `List.erase`
removes the first occurrence. -/
def removeCallback (lst : List Nat) (c : Nat) : List Nat :=
  lst.erase c

/-- Method `BasestationAPI._fire_callbacks` (lib.py lines 345-347) with
CPython `for` semantics over the live list: the loop keeps an index
into `self._callbacks`; invoking a callback may remove an entry, which
shifts later entries left under the iterator.  Returns the final
callback list and the invoked tokens in order.  `fuel` bounds the
iteration; the list never grows, so `lst.length` fuel suffices. -/
def firePyAux (eff : Nat → CbEffect) (lst : List Nat) (i : Nat) (fuel : Nat)
    (acc : List Nat) : List Nat × List Nat :=
  match fuel with
  | 0 => (lst, acc.reverse)
  | fuel' + 1 =>
    if h : i < lst.length then
      let c := lst.get ⟨i, h⟩
      let lst' :=
        match eff c with
        | .pure => lst
        | .unregisterCb t => removeCallback lst t
      firePyAux eff lst' (i + 1) fuel' (c :: acc)
    else (lst, acc.reverse)

/-- Firing entry point: iterate the current callback list, passing each
invoked callback the current `self._state`.  Returns the callback list
after the loop and the fired events. -/
def fireCallbacks (eff : Nat → CbEffect) (s : APIState) :
    APIState × List (Nat × BasestationState) :=
  let (finalList, invoked) :=
    firePyAux eff s.callbacks 0 s.callbacks.length []
  ({ s with callbacks := finalList }, invoked.map (fun c => (c, s.state)))

/-- Python `int.to_bytes()` with the default length 1 (used for channel and
power payloads, both known to fit in one byte at the call sites). -/
def toBytes1 (n : Nat) : List Nat := [n % 256]

/-- Method `BasestationAPI.set_power_state` (lib.py lines 216-227): write the
wire value to the power characteristic with `disconnect=True`; the
`finally` in `_write_char` disconnects exactly once whether or not the
write succeeded.  On success replace the cached snapshot's power field
and fire callbacks; on failure propagate with no mutation. -/
def set_power_state (eff : Nat → CbEffect) (wenv : WriteEnv) (s : APIState)
    (power : BasestationStatePower) : Outcome Unit :=
  let cmd := [toBytes1 power.value]
  match wenv.power with
  | .error e =>
    { result := .error e, post := s
      trace :=
        { Trace.empty with writes := [(CharId.power, cmd)], disconnects := 1 } }
  | .ok _ =>
    let s1 := { s with state := { s.state with power := some power } }
    let (s2, events) := fireCallbacks eff s1
    { result := .ok (), post := s2
      trace :=
        { Trace.empty with
            writes := [(CharId.power, cmd)]
            disconnects := 1
            callbackEvents := events } }

/-- Method `BasestationAPI.set_power_on` (lib.py lines 229-231). -/
def set_power_on (eff : Nat → CbEffect) (wenv : WriteEnv) (s : APIState) :
    Outcome Unit :=
  set_power_state eff wenv s BasestationStatePower.AWAKE

/-- Method `BasestationAPI.set_power_off` (lib.py lines 233-235). -/
def set_power_off (eff : Nat → CbEffect) (wenv : WriteEnv) (s : APIState) :
    Outcome Unit :=
  set_power_state eff wenv s BasestationStatePower.SLEEPING

/-- Method `BasestationAPI.set_channel` (lib.py lines 237-253): channel
outside `CHANNEL_NUM_MIN..CHANNEL_NUM_MAX` raises `ValueError` before
any transport access; otherwise write one byte to the channel
characteristic with `disconnect=True`, then on success replace the
cached channel and force power to AWAKE and fire callbacks. -/
def set_channel (eff : Nat → CbEffect) (wenv : WriteEnv) (s : APIState)
    (channel : Int) : Outcome Unit :=
  if channel < CHANNEL_NUM_MIN ∨ channel > CHANNEL_NUM_MAX then
    { result := .error .validationError, post := s, trace := Trace.empty }
  else
    let cmd := [toBytes1 channel.toNat]
    match wenv.channel with
    | .error e =>
      { result := .error e, post := s
        trace :=
          { Trace.empty with writes := [(CharId.channel, cmd)], disconnects := 1 } }
    | .ok _ =>
      let s1 :=
        { s with
            state :=
              { s.state with
                  channel := some channel
                  power := some BasestationStatePower.AWAKE } }
      let (s2, events) := fireCallbacks eff s1
      { result := .ok (), post := s2
        trace :=
          { Trace.empty with
              writes := [(CharId.channel, cmd)]
              disconnects := 1
              callbackEvents := events } }

/-- Method `BasestationAPI.identify` (lib.py lines 255-262): write the fixed
trigger byte 0x01 with `disconnect=True`; on success force cached
power to AWAKE and fire callbacks. -/
def identify (eff : Nat → CbEffect) (wenv : WriteEnv) (s : APIState) :
    Outcome Unit :=
  let cmd := [toBytes1 0x01]
  match wenv.identify with
  | .error e =>
    { result := .error e, post := s
      trace :=
        { Trace.empty with writes := [(CharId.identify, cmd)], disconnects := 1 } }
  | .ok _ =>
    let s1 :=
      { s with state := { s.state with power := some BasestationStatePower.AWAKE } }
    let (s2, events) := fireCallbacks eff s1
    { result := .ok (), post := s2
      trace :=
        { Trace.empty with
            writes := [(CharId.identify, cmd)]
            disconnects := 1
            callbackEvents := events } }

/-- Method `BasestationAPI.register_callback` (lib.py lines 349-358): append
the callback to `self._callbacks`.  The returned unsubscribe handle is
`unregister_callback` below. -/
def register_callback (s : APIState) (c : Nat) : APIState :=
  { s with callbacks := s.callbacks ++ [c] }

/-- The unsubscribe closure returned by `register_callback` (lib.py
lines 354-355): `self._callbacks.remove(callback)`, removing the first
occurrence equal (identical) to the registered callback object. -/
def unregister_callback (s : APIState) (c : Nat) : APIState :=
  { s with callbacks := removeCallback s.callbacks c }

/-- Method `BasestationAPI.is_on` (lib.py lines 160-166): true unless the
cached power is STANDBY or SLEEPING; the unset sentinel `None` is not
in that list, so it reports on. -/
def is_on (s : APIState) : Bool :=
  !(s.state.power == some BasestationStatePower.STANDBY
    || s.state.power == some BasestationStatePower.SLEEPING)

/-! Concrete fixtures used by witnesses and counterexamples. -/

def envAllOk : ReadEnv :=
  { modelId := .ok "1004", manufacturer := .ok "Valve Corporation"
    serialNumber := .ok "ABC123", powerBytes := .ok [0x01]
    channelBytes := .ok [0x05], swVersion := .ok "1.0" }

def envPowerFF : ReadEnv := { envAllOk with powerBytes := .ok [0xFF] }

def wenvAllOk : WriteEnv := { power := .ok (), channel := .ok (), identify := .ok () }

def effAllPure : Nat → CbEffect := fun _ => CbEffect.pure

def sPrior : APIState :=
  { state := { power := some .SLEEPING, channel := some 3, sw_version := some "0.9" }
    manufacturer := some "Valve Corporation", model_id := some "1004"
    serial_number := some "ABC123", callbacks := [7] }

def sSkip : APIState := { sPrior with callbacks := [0, 1] }

def effSkip : Nat → CbEffect :=
  fun c => if c = 0 then CbEffect.unregisterCb 0 else CbEffect.pure

def stAllOk : BasestationState :=
  { power := some .AWAKE, channel := some 5, sw_version := some "1.0" }

theorem bootstrapIdentity_state (env : ReadEnv) (s : APIState) :
    (bootstrapIdentity env s).1.state = s.state := by
  unfold bootstrapIdentity
  repeat' split
  all_goals rfl

theorem bootstrapIdentity_callbacks (env : ReadEnv) (s : APIState) :
    (bootstrapIdentity env s).1.callbacks = s.callbacks := by
  unfold bootstrapIdentity
  repeat' split
  all_goals rfl

theorem bootstrapIdentity_cached (env : ReadEnv) (s : APIState) (v : String)
    (h : s.serial_number = some v) :
    bootstrapIdentity env s = (s, [], none) := by
  unfold bootstrapIdentity
  rw [h]
  simp

theorem update_disconnects (env : ReadEnv) (s : APIState) :
    (update env s).trace.disconnects = 1 := by
  unfold update
  repeat' split
  all_goals rfl

theorem update_no_callbacks (env : ReadEnv) (s : APIState) :
    (update env s).trace.callbackEvents = [] := by
  unfold update
  repeat' split
  all_goals rfl

theorem update_error_state (env : ReadEnv) (s : APIState) (e : BSError)
    (h : (update env s).result = .error e) :
    (update env s).post.state = s.state := by
  have hb := bootstrapIdentity_state env s
  unfold update at h ⊢
  split at h
  next s1 idReads idErr heq =>
    have hs1 : s1.state = s.state := by rw [heq] at hb; exact hb
    repeat' split at h
    all_goals simp_all

theorem update_ok_state (env : ReadEnv) (s : APIState) (st : BasestationState)
    (h : (update env s).result = .ok st) :
    (update env s).post.state = st ∧
    (∃ pb p cbytes sw,
      env.powerBytes = .ok pb ∧ decodePower pb = .ok p ∧
      env.channelBytes = .ok cbytes ∧ env.swVersion = .ok sw ∧
      st = { power := some p, channel := some (Int.ofNat (intFromBytes cbytes)),
             sw_version := some sw }) := by
  unfold update at h ⊢
  split at h
  next s1 idReads idErr heq =>
    repeat' split at h
    all_goals simp_all

theorem firePyAux_pure (eff : Nat → CbEffect) (hp : ∀ c, eff c = .pure) :
    ∀ (fuel i : Nat) (lst acc : List Nat), lst.length ≤ i + fuel →
      firePyAux eff lst i fuel acc = (lst, acc.reverse ++ lst.drop i) := by
  intro fuel
  induction fuel with
  | zero =>
    intro i lst acc hle
    have hd : lst.drop i = [] := List.drop_eq_nil_of_le (by omega)
    unfold firePyAux
    rw [hd]
    simp
  | succ f ih =>
    intro i lst acc hle
    unfold firePyAux
    by_cases h : i < lst.length
    · rw [dif_pos h]
      simp only [hp]
      rw [ih (i + 1) lst (lst.get ⟨i, h⟩ :: acc) (by omega)]
      rw [List.drop_eq_getElem_cons h]
      simp [List.reverse_cons, List.append_assoc]
    · rw [dif_neg h]
      have hd : lst.drop i = [] := List.drop_eq_nil_of_le (by omega)
      simp [hd]

theorem fireCallbacks_pure (eff : Nat → CbEffect) (hp : ∀ c, eff c = .pure)
    (s : APIState) :
    fireCallbacks eff s = (s, s.callbacks.map (fun c => (c, s.state))) := by
  unfold fireCallbacks
  rw [firePyAux_pure eff hp s.callbacks.length 0 s.callbacks [] (by omega)]
  simp

theorem set_power_state_ok (eff : Nat → CbEffect) (wenv : WriteEnv) (s : APIState)
    (p : BasestationStatePower) (hw : wenv.power = Except.ok ())
    (hp : ∀ c, eff c = .pure) :
    set_power_state eff wenv s p =
      { result := .ok ()
        post := { s with state := { s.state with power := some p } }
        trace :=
          { Trace.empty with
              writes := [(CharId.power, [toBytes1 p.value])]
              disconnects := 1
              callbackEvents :=
                s.callbacks.map
                  (fun c => (c, { s.state with power := some p })) } } := by
  simp [set_power_state, hw, fireCallbacks_pure eff hp]

theorem identify_ok (eff : Nat → CbEffect) (wenv : WriteEnv) (s : APIState)
    (hw : wenv.identify = Except.ok ()) (hp : ∀ c, eff c = .pure) :
    identify eff wenv s =
      { result := .ok ()
        post :=
          { s with
              state := { s.state with power := some BasestationStatePower.AWAKE } }
        trace :=
          { Trace.empty with
              writes := [(CharId.identify, [toBytes1 0x01])]
              disconnects := 1
              callbackEvents :=
                s.callbacks.map
                  (fun c =>
                    (c, { s.state with
                            power := some BasestationStatePower.AWAKE })) } } := by
  simp [identify, hw, fireCallbacks_pure eff hp]

theorem set_channel_ok (eff : Nat → CbEffect) (wenv : WriteEnv) (s : APIState)
    (n : Int) (h1 : 1 ≤ n) (h2 : n ≤ 16) (hw : wenv.channel = Except.ok ())
    (hp : ∀ c, eff c = .pure) :
    set_channel eff wenv s n =
      { result := .ok ()
        post :=
          { s with
              state :=
                { s.state with
                    channel := some n
                    power := some BasestationStatePower.AWAKE } }
        trace :=
          { Trace.empty with
              writes := [(CharId.channel, [toBytes1 n.toNat])]
              disconnects := 1
              callbackEvents :=
                s.callbacks.map
                  (fun c =>
                    (c, { s.state with
                            channel := some n
                            power := some BasestationStatePower.AWAKE })) } } := by
  have hif : ¬(n < CHANNEL_NUM_MIN ∨ n > CHANNEL_NUM_MAX) := by
    unfold CHANNEL_NUM_MIN CHANNEL_NUM_MAX
    omega
  simp [set_channel, hif, hw, fireCallbacks_pure eff hp]

theorem update_reads_cached (env : ReadEnv) (s : APIState)
    (h : s.serial_number ≠ none) :
    ∀ c ∈ (update env s).trace.reads,
      c = CharId.power ∨ c = CharId.channel ∨ c = CharId.swVersion := by
  obtain ⟨v, hv⟩ := Option.ne_none_iff_exists'.mp h
  unfold update
  rw [bootstrapIdentity_cached env s v hv]
  repeat' split
  all_goals simp_all

theorem bootstrapIdentity_serial (env : ReadEnv) (s : APIState)
    (h : (bootstrapIdentity env s).2.2 = none) :
    (bootstrapIdentity env s).1.serial_number ≠ none := by
  rcases hr : bootstrapIdentity env s with ⟨s1, idReads, idErr⟩
  rw [hr] at h
  simp at h
  subst h
  unfold bootstrapIdentity at hr
  split at hr
  · repeat' split at hr
    all_goals try simp_all
    all_goals (rw [← hr.1]; simp)
  · next hc =>
    simp only [Prod.mk.injEq] at hr
    rw [← hr.1]
    exact hc

theorem update_ok_serial (env : ReadEnv) (s : APIState) (st : BasestationState)
    (h : (update env s).result = .ok st) :
    (update env s).post.serial_number ≠ none := by
  have hb := bootstrapIdentity_serial env s
  unfold update at h ⊢
  split at h
  next s1 idReads idErr heq =>
    rw [heq] at hb
    simp at hb
    repeat' split at h
    all_goals simp_all

theorem mem_map_fst (l : List Nat) (st : BasestationState) (ev : Nat × BasestationState)
    (h : ev ∈ l.map (fun c => (c, st))) : ev.1 ∈ l ∧ ev.2 = st := by
  rcases List.mem_map.mp h with ⟨c, hc, rfl⟩
  exact ⟨hc, rfl⟩

theorem filter_fst_eq_map (fn : Nat) (l : List Nat) (hA : fn ∉ l) (st : BasestationState) :
    ((l ++ [fn]).map (fun c => (c, st))).filter (fun ev => ev.1 == fn) = [(fn, st)] := by
  rw [List.map_append, List.filter_append]
  have h1 : (l.map (fun c => (c, st))).filter (fun ev => ev.1 == fn) = [] := by
    refine List.filter_eq_nil_iff.mpr ?_
    intro ev hev
    rcases List.mem_map.mp hev with ⟨c, hc, rfl⟩
    simp only [beq_iff_eq]
    intro hcfn
    exact hA (hcfn ▸ hc)
  rw [h1]
  simp


/-- C1: if `update()` fails at any characteristic read (for example a
decode error on the power characteristic), the previously cached state
snapshot is left unchanged, the session is disconnected exactly once
via the `finally` cleanup path, and the triggering error is the result
surfaced to the caller. -/
theorem update_failure_atomic_cleanup (env : ReadEnv) (s : APIState) (e : BSError)
    (h : (update env s).result = .error e) :
    (update env s).post.state = s.state ∧
    (update env s).trace.disconnects = 1 ∧
    (update env s).result = .error e :=
  ⟨update_error_state env s e h, update_disconnects env s, h⟩

theorem update_failure_atomic_cleanup_witness :
    (update envPowerFF sPrior).post.state = sPrior.state ∧
    (update envPowerFF sPrior).trace.disconnects = 1 ∧
    (update envPowerFF sPrior).result = .error (.protocolDecode 0xFF) :=
  update_failure_atomic_cleanup envPowerFF sPrior (.protocolDecode 0xFF) (by decide)

/-- C2: `set_channel(n)` with `n < 1` or `n > 16` fails with the
validation `ValueError` before any transport access and without state
mutation; for `n` in `1..16` the validation passes, the channel write
is issued, and any failure is the transport write outcome, never the
validation error. -/
theorem set_channel_validation (eff : Nat → CbEffect) (wenv : WriteEnv)
    (s : APIState) (n : Int) :
    (n < 1 ∨ n > 16 →
      set_channel eff wenv s n =
        { result := .error .validationError, post := s, trace := Trace.empty }) ∧
    (1 ≤ n → n ≤ 16 →
      (set_channel eff wenv s n).trace.writes =
          [(CharId.channel, [toBytes1 n.toNat])] ∧
      ((set_channel eff wenv s n).result = .ok () ∨
        ∃ e, wenv.channel = .error e ∧
          (set_channel eff wenv s n).result = .error e)) := by
  constructor
  · intro h
    have hc : n < CHANNEL_NUM_MIN ∨ n > CHANNEL_NUM_MAX := h
    simp [set_channel, hc]
  · intro h1 h2
    have hif : ¬(n < CHANNEL_NUM_MIN ∨ n > CHANNEL_NUM_MAX) := by
      unfold CHANNEL_NUM_MIN CHANNEL_NUM_MAX
      omega
    cases hw : wenv.channel with
    | error e =>
      exact ⟨by simp [set_channel, hif, hw],
        Or.inr ⟨e, rfl, by simp [set_channel, hif, hw]⟩⟩
    | ok u =>
      exact ⟨by simp [set_channel, hif, hw], Or.inl (by simp [set_channel, hif, hw])⟩

theorem set_channel_validation_witness :
    ((0 : Int) < 1 ∨ (0 : Int) > 16) ∧
    set_channel effAllPure wenvAllOk sPrior 0 =
      { result := .error .validationError, post := sPrior, trace := Trace.empty } :=
  ⟨Or.inl (by decide),
    (set_channel_validation effAllPure wenvAllOk sPrior 0).1 (Or.inl (by decide))⟩

/-- C3: for valid `n` in `1..16`, a successful `set_channel(n)` sets
the cached channel to `n`, forces cached power to AWAKE regardless of
the prior power value, and fires subscriber notifications with the new
snapshot. -/
theorem set_channel_success_updates (eff : Nat → CbEffect) (wenv : WriteEnv)
    (s : APIState) (n : Int) (h1 : 1 ≤ n) (h2 : n ≤ 16)
    (hw : wenv.channel = Except.ok ()) (hp : ∀ c, eff c = CbEffect.pure) :
    (set_channel eff wenv s n).result = .ok () ∧
    (set_channel eff wenv s n).post.state.channel = some n ∧
    (set_channel eff wenv s n).post.state.power = some BasestationStatePower.AWAKE ∧
    (set_channel eff wenv s n).trace.callbackEvents =
      s.callbacks.map (fun c => (c, (set_channel eff wenv s n).post.state)) := by
  rw [set_channel_ok eff wenv s n h1 h2 hw hp]
  simp

theorem set_channel_success_updates_witness :
    (set_channel effAllPure wenvAllOk sPrior 7).result = .ok () ∧
    (set_channel effAllPure wenvAllOk sPrior 7).post.state.channel = some 7 ∧
    (set_channel effAllPure wenvAllOk sPrior 7).post.state.power =
      some BasestationStatePower.AWAKE ∧
    (set_channel effAllPure wenvAllOk sPrior 7).trace.callbackEvents =
      sPrior.callbacks.map
        (fun c => (c, (set_channel effAllPure wenvAllOk sPrior 7).post.state)) :=
  set_channel_success_updates effAllPure wenvAllOk sPrior 7 (by decide) (by decide)
    rfl (fun _ => rfl)

/-- C4: the power-state decode maps exactly 0x00, 0x01, 0x02, 0x09 and
0x0B to the five enum members; every other byte raises the protocol
decode error, and an `update()` hitting such a byte leaves the whole
cached object unchanged. -/
theorem power_decode_total_spec :
    BasestationStatePower.ofByte 0x00 = some BasestationStatePower.SLEEPING ∧
    BasestationStatePower.ofByte 0x01 = some BasestationStatePower.AWAKE ∧
    BasestationStatePower.ofByte 0x02 = some BasestationStatePower.STANDBY ∧
    BasestationStatePower.ofByte 0x09 = some BasestationStatePower.AWAKE_AFTER_SLEEPING ∧
    BasestationStatePower.ofByte 0x0B = some BasestationStatePower.AWAKE_AFTER_STANDBY ∧
    (∀ b : Nat, b ≠ 0x00 → b ≠ 0x01 → b ≠ 0x02 → b ≠ 0x09 → b ≠ 0x0B →
      BasestationStatePower.ofByte b = none) ∧
    (∀ (env : ReadEnv) (s : APIState) (v : String) (b : Nat) (rest : List Nat),
      s.serial_number = some v → env.powerBytes = .ok (b :: rest) →
      BasestationStatePower.ofByte b = none →
      (update env s).result = .error (.protocolDecode b) ∧
      (update env s).post = s) := by
  refine ⟨rfl, rfl, rfl, rfl, rfl, ?_, ?_⟩
  · intro b h0 h1 h2 h9 hb
    simp [BasestationStatePower.ofByte, h0, h1, h2, h9, hb]
  · intro env s v b rest hsn hpb hof
    have hd : decodePower (b :: rest) = .error (.protocolDecode b) := by
      simp [decodePower, hof]
    constructor <;>
      simp [update, bootstrapIdentity_cached env s v hsn, hpb, hd]

theorem power_decode_total_spec_witness :
    BasestationStatePower.ofByte 0xFF = none ∧
    (update envPowerFF sPrior).result = .error (.protocolDecode 0xFF) ∧
    (update envPowerFF sPrior).post = sPrior := by
  refine ⟨power_decode_total_spec.2.2.2.2.2.1 0xFF (by decide) (by decide) (by decide)
      (by decide) (by decide), ?_, ?_⟩
  · exact (power_decode_total_spec.2.2.2.2.2.2 envPowerFF sPrior "ABC123" 0xFF []
      rfl rfl (by decide)).1
  · exact (power_decode_total_spec.2.2.2.2.2.2 envPowerFF sPrior "ABC123" 0xFF []
      rfl rfl (by decide)).2

/-- C5: a successful `update()` replaces the cached state with a single
new snapshot combining the freshly read power, channel and firmware
version, returns that snapshot, and the session is disconnected
exactly once on every path, success or failure. -/
theorem update_success_atomic (env : ReadEnv) (s : APIState) (st : BasestationState)
    (h : (update env s).result = .ok st) :
    (update env s).post.state = st ∧
    (∃ pb p cbytes sw,
      env.powerBytes = .ok pb ∧ decodePower pb = .ok p ∧
      env.channelBytes = .ok cbytes ∧ env.swVersion = .ok sw ∧
      st = { power := some p, channel := some (Int.ofNat (intFromBytes cbytes)),
             sw_version := some sw }) ∧
    (∀ (env2 : ReadEnv) (s2 : APIState), (update env2 s2).trace.disconnects = 1) :=
  ⟨(update_ok_state env s st h).1, (update_ok_state env s st h).2,
    fun env2 s2 => update_disconnects env2 s2⟩

theorem update_success_atomic_witness :
    (update envAllOk APIState.initial).post.state = stAllOk ∧
    (∃ pb p cbytes sw,
      envAllOk.powerBytes = .ok pb ∧ decodePower pb = .ok p ∧
      envAllOk.channelBytes = .ok cbytes ∧ envAllOk.swVersion = .ok sw ∧
      stAllOk = { power := some p, channel := some (Int.ofNat (intFromBytes cbytes)),
                  sw_version := some sw }) ∧
    (∀ (env2 : ReadEnv) (s2 : APIState), (update env2 s2).trace.disconnects = 1) :=
  update_success_atomic envAllOk APIState.initial stAllOk (by decide)

/-- C6: once the identity fields are cached (serial number present,
as after any successful `update()`), a subsequent `update()` never
reads the model-id, manufacturer or serial-number characteristics;
identity characteristics are read only while the cache is absent. -/
theorem update_identity_cached_no_reread (env env2 : ReadEnv) (s : APIState)
    (st : BasestationState) (h : (update env s).result = .ok st) :
    (∀ c ∈ (update env2 (update env s).post).trace.reads,
        c ≠ CharId.modelId ∧ c ≠ CharId.manufacturer ∧ c ≠ CharId.serialNumber) ∧
    (∀ s0 : APIState, s0.serial_number ≠ none →
      ∀ c ∈ (update env2 s0).trace.reads,
        c ≠ CharId.modelId ∧ c ≠ CharId.manufacturer ∧ c ≠ CharId.serialNumber) := by
  have main : ∀ s0 : APIState, s0.serial_number ≠ none →
      ∀ c ∈ (update env2 s0).trace.reads,
        c ≠ CharId.modelId ∧ c ≠ CharId.manufacturer ∧ c ≠ CharId.serialNumber := by
    intro s0 h0 c hc
    rcases update_reads_cached env2 s0 h0 c hc with h' | h' | h' <;> subst h' <;>
      exact ⟨by decide, by decide, by decide⟩
  exact ⟨main _ (update_ok_serial env s st h), main⟩

theorem update_identity_cached_no_reread_witness :
    CharId.power ∈ (update envAllOk (update envAllOk APIState.initial).post).trace.reads ∧
    CharId.power ≠ CharId.modelId ∧ CharId.power ≠ CharId.manufacturer ∧
    CharId.power ≠ CharId.serialNumber :=
  ⟨by decide,
    (update_identity_cached_no_reread envAllOk envAllOk APIState.initial stAllOk
      (by decide)).1 CharId.power (by decide)⟩

/-- C7: a successful `set_power_state(mode)` updates only the cached
power field — channel, firmware version and the identity fields are
untouched — and fires subscriber notifications with the new snapshot;
`set_power_on` and `set_power_off` are exactly `set_power_state` at
AWAKE and SLEEPING. -/
theorem set_power_state_frame (eff : Nat → CbEffect) (wenv : WriteEnv)
    (s : APIState) (p : BasestationStatePower) (hw : wenv.power = Except.ok ())
    (hp : ∀ c, eff c = CbEffect.pure) :
    (set_power_state eff wenv s p).result = .ok () ∧
    (set_power_state eff wenv s p).post.state.power = some p ∧
    (set_power_state eff wenv s p).post.state.channel = s.state.channel ∧
    (set_power_state eff wenv s p).post.state.sw_version = s.state.sw_version ∧
    (set_power_state eff wenv s p).post.manufacturer = s.manufacturer ∧
    (set_power_state eff wenv s p).post.model_id = s.model_id ∧
    (set_power_state eff wenv s p).post.serial_number = s.serial_number ∧
    (set_power_state eff wenv s p).trace.callbackEvents =
      s.callbacks.map (fun c => (c, (set_power_state eff wenv s p).post.state)) ∧
    set_power_on eff wenv s = set_power_state eff wenv s BasestationStatePower.AWAKE ∧
    set_power_off eff wenv s = set_power_state eff wenv s BasestationStatePower.SLEEPING := by
  rw [set_power_state_ok eff wenv s p hw hp]
  exact ⟨rfl, rfl, rfl, rfl, rfl, rfl, rfl, rfl, rfl, rfl⟩

theorem set_power_state_frame_witness :
    (set_power_state effAllPure wenvAllOk sPrior BasestationStatePower.STANDBY).result
      = .ok () ∧
    (set_power_state effAllPure wenvAllOk sPrior BasestationStatePower.STANDBY).post.state.power
      = some BasestationStatePower.STANDBY ∧
    (set_power_state effAllPure wenvAllOk sPrior BasestationStatePower.STANDBY).post.state.channel
      = sPrior.state.channel ∧
    (set_power_state effAllPure wenvAllOk sPrior BasestationStatePower.STANDBY).post.state.sw_version
      = sPrior.state.sw_version ∧
    (set_power_state effAllPure wenvAllOk sPrior BasestationStatePower.STANDBY).post.manufacturer
      = sPrior.manufacturer ∧
    (set_power_state effAllPure wenvAllOk sPrior BasestationStatePower.STANDBY).post.model_id
      = sPrior.model_id ∧
    (set_power_state effAllPure wenvAllOk sPrior BasestationStatePower.STANDBY).post.serial_number
      = sPrior.serial_number ∧
    (set_power_state effAllPure wenvAllOk sPrior BasestationStatePower.STANDBY).trace.callbackEvents
      = sPrior.callbacks.map
          (fun c =>
            (c, (set_power_state effAllPure wenvAllOk sPrior
                  BasestationStatePower.STANDBY).post.state)) ∧
    set_power_on effAllPure wenvAllOk sPrior
      = set_power_state effAllPure wenvAllOk sPrior BasestationStatePower.AWAKE ∧
    set_power_off effAllPure wenvAllOk sPrior
      = set_power_state effAllPure wenvAllOk sPrior BasestationStatePower.SLEEPING :=
  set_power_state_frame effAllPure wenvAllOk sPrior BasestationStatePower.STANDBY
    rfl (fun _ => rfl)

/-- C8 counterexample: a concrete `update()` that replaces the cached
snapshot while a subscriber is registered fires no callback at all —
`update` assigns `self._state` without calling `_fire_callbacks`. -/
theorem update_fires_no_callbacks :
    sPrior.callbacks = [7] ∧
    (update envAllOk sPrior).post.state ≠ sPrior.state ∧
    (update envAllOk sPrior).trace.callbackEvents = [] := by decide

/-- C8 amended: the state-changing write operations (`set_power_state`,
`set_channel`, `identify`) invoke every registered subscriber
synchronously with the new snapshot, but `update()` replaces the
snapshot without invoking any subscriber. -/
theorem write_ops_fire_callbacks (eff : Nat → CbEffect) (wenv : WriteEnv)
    (s : APIState) (p : BasestationStatePower) (n : Int)
    (hp : ∀ c, eff c = CbEffect.pure) (hwp : wenv.power = Except.ok ())
    (hwc : wenv.channel = Except.ok ()) (hwi : wenv.identify = Except.ok ())
    (h1 : 1 ≤ n) (h2 : n ≤ 16) :
    (set_power_state eff wenv s p).trace.callbackEvents =
      s.callbacks.map (fun c => (c, (set_power_state eff wenv s p).post.state)) ∧
    (set_channel eff wenv s n).trace.callbackEvents =
      s.callbacks.map (fun c => (c, (set_channel eff wenv s n).post.state)) ∧
    (identify eff wenv s).trace.callbackEvents =
      s.callbacks.map (fun c => (c, (identify eff wenv s).post.state)) ∧
    (∀ env : ReadEnv, (update env s).trace.callbackEvents = []) := by
  rw [set_power_state_ok eff wenv s p hwp hp, set_channel_ok eff wenv s n h1 h2 hwc hp,
    identify_ok eff wenv s hwi hp]
  exact ⟨rfl, rfl, rfl, fun env => update_no_callbacks env s⟩

theorem write_ops_fire_callbacks_witness :
    (set_power_state effAllPure wenvAllOk sPrior BasestationStatePower.AWAKE).trace.callbackEvents
      = sPrior.callbacks.map
          (fun c =>
            (c, (set_power_state effAllPure wenvAllOk sPrior
                  BasestationStatePower.AWAKE).post.state)) ∧
    (set_channel effAllPure wenvAllOk sPrior 4).trace.callbackEvents
      = sPrior.callbacks.map
          (fun c => (c, (set_channel effAllPure wenvAllOk sPrior 4).post.state)) ∧
    (identify effAllPure wenvAllOk sPrior).trace.callbackEvents
      = sPrior.callbacks.map
          (fun c => (c, (identify effAllPure wenvAllOk sPrior).post.state)) ∧
    (∀ env : ReadEnv, (update env sPrior).trace.callbackEvents = []) :=
  write_ops_fire_callbacks effAllPure wenvAllOk sPrior BasestationStatePower.AWAKE 4
    (fun _ => rfl) rfl rfl rfl (by decide) (by decide)

/-- C9 counterexample: with subscribers `[0, 1]` where callback 0 calls
its unsubscribe handle during the notification, the dispatch loop over
the live list skips callback 1 entirely: only callback 0 is invoked,
although callback 1 stays registered.  Unsubscribing during an
in-progress notification does disturb the iteration. -/
theorem unregister_during_fire_skips :
    sSkip.callbacks = [0, 1] ∧
    effSkip 0 = CbEffect.unregisterCb 0 ∧
    effSkip 1 = CbEffect.pure ∧
    (set_power_on effSkip wenvAllOk sSkip).result = .ok () ∧
    (set_power_on effSkip wenvAllOk sSkip).trace.callbackEvents.map Prod.fst = [0] ∧
    (set_power_on effSkip wenvAllOk sSkip).post.callbacks = [1] := by decide

/-- C9 amended: after `register_callback(fn)`, a successful
`set_power_on()` invokes `fn` exactly once with a snapshot whose power
is AWAKE; after calling the returned unsubscribe handle, a subsequent
`identify()` does not invoke `fn`; the handle removes exactly the first
registration equal to `fn` without touching other entries.  However,
unsubscribing while a notification dispatch is iterating can skip a
later subscriber of that same dispatch. -/
theorem register_callback_lifecycle (s : APIState) (fn : Nat) (eff : Nat → CbEffect)
    (wenv : WriteEnv) (hp : ∀ c, eff c = CbEffect.pure) (hnew : fn ∉ s.callbacks)
    (hwp : wenv.power = Except.ok ()) (hwi : wenv.identify = Except.ok ()) :
    ((set_power_on eff wenv (register_callback s fn)).trace.callbackEvents.filter
        (fun ev => ev.1 == fn)).length = 1 ∧
    (∀ ev ∈ (set_power_on eff wenv (register_callback s fn)).trace.callbackEvents,
      ev.1 = fn → ev.2.power = some BasestationStatePower.AWAKE) ∧
    (∀ ev ∈ (identify eff wenv
        (unregister_callback
          (set_power_on eff wenv (register_callback s fn)).post fn)).trace.callbackEvents,
      ev.1 ≠ fn) ∧
    (unregister_callback (register_callback s fn) fn).callbacks = s.callbacks := by
  have herase : (s.callbacks ++ [fn]).erase fn = s.callbacks := by
    rw [List.erase_append_right _ hnew]
    simp
  have e1 : (set_power_on eff wenv (register_callback s fn)).trace.callbackEvents
      = (s.callbacks ++ [fn]).map
          (fun c => (c, { s.state with power := some BasestationStatePower.AWAKE })) := by
    unfold set_power_on
    rw [set_power_state_ok eff wenv (register_callback s fn)
      BasestationStatePower.AWAKE hwp hp]
    rfl
  have hXc : (unregister_callback
      (set_power_on eff wenv (register_callback s fn)).post fn).callbacks
      = s.callbacks := by
    unfold set_power_on
    rw [set_power_state_ok eff wenv (register_callback s fn)
      BasestationStatePower.AWAKE hwp hp]
    exact herase
  refine ⟨?_, ?_, ?_, ?_⟩
  · rw [e1, filter_fst_eq_map fn s.callbacks hnew]
    rfl
  · intro ev hev hfn
    rw [e1] at hev
    rcases mem_map_fst _ _ ev hev with ⟨h1, h2⟩
    rw [h2]
  · intro ev hev
    rw [identify_ok eff wenv _ hwi hp] at hev
    rcases mem_map_fst _ _ ev hev with ⟨h1, h2⟩
    rw [hXc] at h1
    intro hfn
    exact hnew (hfn ▸ h1)
  · exact herase

theorem register_callback_lifecycle_witness :
    ((set_power_on effAllPure wenvAllOk (register_callback sPrior 5)).trace.callbackEvents.filter
        (fun ev => ev.1 == 5)).length = 1 ∧
    (unregister_callback (register_callback sPrior 5) 5).callbacks = sPrior.callbacks :=
  ⟨(register_callback_lifecycle sPrior 5 effAllPure wenvAllOk (fun _ => rfl) (by decide)
      rfl rfl).1,
    (register_callback_lifecycle sPrior 5 effAllPure wenvAllOk (fun _ => rfl) (by decide)
      rfl rfl).2.2.2⟩

/-- C10: a freshly constructed client whose power field still holds the
unset sentinel reports `is_on = true`; `is_on` is false exactly when
the cached power equals STANDBY or SLEEPING. -/
theorem is_on_unset_sentinel_reports_on :
    is_on APIState.initial = true ∧
    (∀ s : APIState,
      is_on s = false ↔
        (s.state.power = some BasestationStatePower.STANDBY ∨
         s.state.power = some BasestationStatePower.SLEEPING)) := by
  refine ⟨rfl, ?_⟩
  intro s
  unfold is_on
  cases hp : s.state.power with
  | none => simp
  | some pv => cases pv <;> simp

theorem is_on_unset_sentinel_reports_on_witness :
    is_on APIState.initial = true ∧
    (is_on sPrior = false ↔
      (sPrior.state.power = some BasestationStatePower.STANDBY ∨
       sPrior.state.power = some BasestationStatePower.SLEEPING)) :=
  ⟨is_on_unset_sentinel_reports_on.1, is_on_unset_sentinel_reports_on.2 sPrior⟩
